import Mathlib

/-!
Shallow embedding of the search widget in ablixM/LZ_AI,
`src/components/landingPage/SearchTabs.tsx`, and of its smooth-scroll easing
function. The component state is the eight `useState` cells of `SearchTabs`;
event handlers become functions from state to state that also report the
outbound HTTP requests they issue. React `useState` semantics are modelled
explicitly: an event handler reads the state values captured by the render
that created it (its closure snapshot), while `setX` calls update the live
state; within one handler invocation the snapshot does not change.
-/

namespace SearchTabs

/-- JSON values, the possible results of `response.json()`. -/
inductive JsonValue where
  | jnull : JsonValue
  | jbool (b : Bool) : JsonValue
  | jnum (n : Int) : JsonValue
  | jstr (s : String) : JsonValue
  | jarr (elems : List JsonValue) : JsonValue
  | jobj (fields : List (String × JsonValue)) : JsonValue

/-- Property access `v.name` on a parsed JSON value: a field of an object,
`undefined` (here `none`) otherwise. -/
def JsonValue.getField : JsonValue → String → Option JsonValue
  | .jobj fields, name => fields.lookup name
  | _, _ => none

/-- JavaScript truthiness of a JSON value (used by `errorData.error || ...`). -/
def JsonValue.truthy : JsonValue → Bool
  | .jnull => false
  | .jbool b => b
  | .jnum n => n != 0
  | .jstr s => s != ""
  | .jarr _ => true
  | .jobj _ => true

mutual

/-- JavaScript `String(v)` coercion of a JSON value, as applied by
`new Error(v)` to a non-string argument. -/
def JsonValue.jsToString : JsonValue → String
  | .jnull => "null"
  | .jbool b => cond b "true" "false"
  | .jnum n => toString n
  | .jstr s => s
  | .jobj _ => "[object Object]"
  | .jarr xs => String.intercalate "," (jsArrayElems xs)

/-- Elements of `Array.prototype.toString` (`join(",")`): `null` renders as
the empty string, other elements via `String(v)`. -/
def jsArrayElems : List JsonValue → List String
  | [] => []
  | .jnull :: rest => "" :: jsArrayElems rest
  | v :: rest => v.jsToString :: jsArrayElems rest

end

/-- The eight `useState` cells of the `SearchTabs` component. `results` is
stored verbatim from the parsed response body (`setResults(data)` performs no
schema validation), so it is a JSON value; the initial value is the empty
array `[]`. -/
structure SearchTabsState where
  keyword : String
  contentType : String
  isLoading : Bool
  hasSearched : Bool
  results : JsonValue
  error : Option String
  showQuestionOptions : Bool
  showKeywordOptions : Bool

/-- Initial component state: `useState("")`, `useState("all")`,
`useState(false)`, `useState(false)`, `useState<SearchResult[]>([])`,
`useState<string | null>(null)`, `useState(true)`, `useState(true)`. -/
def initialState : SearchTabsState :=
  { keyword := ""
    contentType := "all"
    isLoading := false
    hasSearched := false
    results := .jarr []
    error := none
    showQuestionOptions := true
    showKeywordOptions := true }

/-- ECMAScript whitespace as recognised by `String.prototype.trim`:
WhiteSpace (tab, VT, FF, space, NBSP, ZWNBSP and other space separators) and
LineTerminator (LF, CR, LS, PS) code points. -/
def jsIsWhitespace (c : Char) : Bool :=
  c.toNat = 9 || c.toNat = 10 || c.toNat = 11 || c.toNat = 12 ||
    c.toNat = 13 || c.toNat = 32 || c.toNat = 160 || c.toNat = 5760 ||
    (8192 ≤ c.toNat && c.toNat ≤ 8202) || c.toNat = 8232 ||
    c.toNat = 8233 || c.toNat = 8239 || c.toNat = 8287 ||
    c.toNat = 12288 || c.toNat = 65279

/-- JavaScript `keyword.trim()`: strips leading and trailing ECMAScript
whitespace. -/
def jsTrim (s : String) : String :=
  ⟨((s.data.dropWhile jsIsWhitespace).reverse.dropWhile jsIsWhitespace).reverse⟩

/-- A settled HTTP response as `handleSearch` observes it: status, status
text, and the body as parsed by `response.json()` (`none` when the body is
not valid JSON, in which case `response.json()` rejects). -/
structure Response where
  status : Nat
  statusText : String
  jsonBody : Option JsonValue

/-- The `response.ok` accessor of the Fetch API: status in the range 200-299. -/
def Response.ok (r : Response) : Bool :=
  decide (200 ≤ r.status) && decide (r.status ≤ 299)

/-- Result of `await response.json()`: the parsed body, or a rejection whose
carried SyntaxError is never inspected by this component (every catch of it
discards the caught value). -/
def Response.json (r : Response) : Except Unit JsonValue :=
  match r.jsonBody with
  | some v => .ok v
  | none => .error ()

/-- A JavaScript value thrown inside the `try` of `handleSearch`:
an `Error` object with its `message`, the SyntaxError rejection of
`response.json()` (also an `Error`; its message text), or a thrown value
that is not an `instanceof Error`. -/
inductive Thrown where
  | errObj (message : String) : Thrown
  | parseRejection (message : String) : Thrown
  | nonErrorValue : Thrown

/-- The message the outer `catch` extracts:
`err instanceof Error ? err.message : "An unknown error occurred"`. A
SyntaxError rejection is an `instanceof Error`, so its message is used. -/
def Thrown.caughtMessage : Thrown → String
  | .errObj m => m
  | .parseRejection m => m
  | .nonErrorValue => "An unknown error occurred"

/-- How `await fetch(...)` settles: it rejects with a thrown value (network
failure), or resolves to a response. -/
inductive FetchOutcome where
  | networkFailure (t : Thrown) : FetchOutcome
  | resolved (r : Response) : FetchOutcome

/-- The fallback of `errorData.error || ` ⬝ : the template literal
`Error: ${response.status} ${response.statusText}`. -/
def statusFallbackMessage (status : Nat) (statusText : String) : String :=
  "Error: " ++ toString status ++ " " ++ statusText

/-- The message thrown by the `catch (jsonError)` arm of the non-ok branch:
`Error: ${response.status} ${response.statusText}. The API endpoint may not
be available.` -/
def endpointUnavailableMessage (status : Nat) (statusText : String) : String :=
  "Error: " ++ toString status ++ " " ++ statusText ++
    ". The API endpoint may not be available."

/-- The message thrown when a 2xx body fails to parse as JSON. -/
def invalidResponseMessage : String :=
  "The API returned an invalid response. Please check server configuration."

/-- The inner `try` of the `!response.ok` branch: parse the body
(`errorData = await response.json()`, which may itself reject), then
`throw new Error(errorData.error || ` fallback `)`. Every path through this
block throws, so the result type's success case is empty. -/
def nonOkInnerTry (r : Response) : Except Thrown Empty :=
  match r.json with
  | .error _ => .error (.parseRejection "Unexpected token")
  | .ok errorData =>
      .error (.errObj
        (match errorData.getField "error" with
         | some v =>
             if v.truthy then v.jsToString
             else statusFallbackMessage r.status r.statusText
         | none => statusFallbackMessage r.status r.statusText))

/-- The whole `!response.ok` branch. The inner `try` always throws, and its
`catch (jsonError)` clause catches whatever was thrown — the rejection of
`response.json()` and equally the `new Error(errorData.error || ...)` thrown
on the line above it — and replaces it with the generic endpoint-unavailable
error. -/
def nonOkBranch (r : Response) : Thrown :=
  match nonOkInnerTry r with
  | .error _jsonError =>
      .errObj (endpointUnavailableMessage r.status r.statusText)
  | .ok e => e.elim

/-- The body of the outer `try` of `handleSearch` from the point the fetch
settles: returns the parsed `data` stored by `setResults(data)`, or the
thrown value the outer `catch` receives. -/
def searchTryBody (outcome : FetchOutcome) : Except Thrown JsonValue :=
  match outcome with
  | .networkFailure t => .error t
  | .resolved r =>
      if r.ok then
        match r.json with
        | .ok data => .ok data
        | .error _ => .error (.errObj invalidResponseMessage)
      else
        .error (nonOkBranch r)

/-- Hexadecimal digit (uppercase), as produced by `encodeURIComponent`. -/
def hexUpper (n : Nat) : Char :=
  if n < 10 then Char.ofNat (48 + n) else Char.ofNat (55 + n)

/-- UTF-8 byte sequence of a character, as percent-encoding operates on. -/
def utf8Bytes (c : Char) : List Nat :=
  let n := c.toNat
  if n < 128 then [n]
  else if n < 2048 then [192 + n / 64, 128 + n % 64]
  else if n < 65536 then [224 + n / 4096, 128 + (n / 64) % 64, 128 + n % 64]
  else [240 + n / 262144, 128 + (n / 4096) % 64, 128 + (n / 64) % 64,
        128 + n % 64]

/-- Characters `encodeURIComponent` leaves unescaped:
`A-Z a-z 0-9 - _ . ! ~ * ' ( )`. -/
def uriUnreserved (c : Char) : Bool :=
  c.isAlpha || c.isDigit || c = '-' || c = '_' || c = '.' || c = '!' ||
    c = '~' || c = '*' || c = Char.ofNat 39 || c = '(' || c = ')'

/-- One percent-escaped byte, `%XY` with uppercase hex. -/
def percentByte (b : Nat) : String :=
  String.mk ['%', hexUpper (b / 16), hexUpper (b % 16)]

/-- JavaScript `encodeURIComponent`: unreserved characters pass through,
every other character is replaced by the percent-escapes of its UTF-8
bytes. -/
def encodeURIComponent (s : String) : String :=
  s.data.foldl
    (fun acc c =>
      if uriUnreserved c then acc.push c
      else acc ++ String.join ((utf8Bytes c).map percentByte))
    ""

/-- The request URL built by `handleSearch`:
`` `${baseUrl}/api/search?q=${encodeURIComponent(keyword)}&type=${contentType}` ``.
`baseUrl` is the environment-selected constant (production host or empty
string in development). -/
def requestUrl (baseUrl keyword contentType : String) : String :=
  baseUrl ++ "/api/search?q=" ++ encodeURIComponent keyword ++ "&type=" ++
    contentType

/-- An outbound HTTP GET request issued by `fetch`. -/
structure OutboundRequest where
  url : String

/-- The synchronous prefix of `handleSearch` once the empty-query guard has
passed, run before the fetch is dispatched: `setIsLoading(true)`,
`setError(null)`, `setHasSearched(true)`, `setShowQuestionOptions(false)`,
`setShowKeywordOptions(false)`. Note it does not touch `results`. -/
def preFetchState (s : SearchTabsState) : SearchTabsState :=
  { s with
    isLoading := true
    error := none
    hasSearched := true
    showQuestionOptions := false
    showKeywordOptions := false }

/-- `handleSearch`, parameterised by the render snapshot its closure reads
(`snapKeyword`, `snapContentType` — the `keyword` and `contentType` values of
the render that created the handler), the way the single fetch settles, and
the live state at invocation time. Returns the final state after the
`finally` clause and the list of outbound requests issued.

```
if (!keyword.trim()) return;
setIsLoading(true); setError(null); setHasSearched(true);
setShowQuestionOptions(false); setShowKeywordOptions(false);
try {
  const response = await fetch(`${baseUrl}/api/search?q=...`);
  if (!response.ok) { ... nonOkBranch ... }
  let data;
  try { data = await response.json(); }
  catch (jsonError) { throw new Error("The API returned an invalid ..."); }
  setResults(data);
} catch (err) {
  setError(err instanceof Error ? err.message : "An unknown error occurred");
  setResults([]);
} finally {
  setIsLoading(false);
}
``` -/
def handleSearch (baseUrl snapKeyword snapContentType : String)
    (outcome : FetchOutcome) (s : SearchTabsState) :
    SearchTabsState × List OutboundRequest :=
  if jsTrim snapKeyword = "" then (s, [])
  else
    let s1 := preFetchState s
    let req : OutboundRequest :=
      ⟨requestUrl baseUrl snapKeyword snapContentType⟩
    let s2 :=
      match searchTryBody outcome with
      | .ok data => { s1 with results := data }
      | .error err =>
          { s1 with error := some err.caughtMessage, results := .jarr [] }
    ({ s2 with isLoading := false }, [req])

/-- The `submit` flow of the spec: `handleSearch` invoked at a render whose
snapshot coincides with the live state (the button click or Enter keypress
happens after the typed text has been committed by a re-render). -/
def submit (baseUrl : String) (outcome : FetchOutcome) (s : SearchTabsState) :
    SearchTabsState × List OutboundRequest :=
  handleSearch baseUrl s.keyword s.contentType outcome s

/-- `handleKeyDown`: pressing a key in the input; Enter triggers
`handleSearch`, any other key does nothing. -/
def handleKeyDown (baseUrl key : String) (outcome : FetchOutcome)
    (s : SearchTabsState) : SearchTabsState × List OutboundRequest :=
  if key = "Enter" then submit baseUrl outcome s else (s, [])

/-- `handleKeywordClick(selectedKeyword)`: `setKeyword(selectedKeyword)`
updates the live state, then `handleSearch()` runs — but `handleSearch` was
created by the same render as `handleKeywordClick`, so its closure still
reads the snapshot values `s.keyword` and `s.contentType` captured before the
click; React state setters do not change the values already captured by the
current render's closures. -/
def handleKeywordClick (baseUrl selectedKeyword : String)
    (outcome : FetchOutcome) (s : SearchTabsState) :
    SearchTabsState × List OutboundRequest :=
  handleSearch baseUrl s.keyword s.contentType outcome
    { s with keyword := selectedKeyword }

/-- `handleQuestionClick(question)`: identical shape to
`handleKeywordClick`. -/
def handleQuestionClick (baseUrl question : String) (outcome : FetchOutcome)
    (s : SearchTabsState) : SearchTabsState × List OutboundRequest :=
  handleSearch baseUrl s.keyword s.contentType outcome
    { s with keyword := question }

/-- Typing a label into the input (the `onChange` re-render commits the new
`keyword`) and then pressing Enter. -/
def typeThenEnter (baseUrl label : String) (outcome : FetchOutcome)
    (s : SearchTabsState) : SearchTabsState × List OutboundRequest :=
  handleKeyDown baseUrl "Enter" outcome { s with keyword := label }

/-- `toggleQuestionOptions`. -/
def toggleQuestionOptions (s : SearchTabsState) : SearchTabsState :=
  { s with showQuestionOptions := !s.showQuestionOptions }

/-- `toggleKeywordOptions`. -/
def toggleKeywordOptions (s : SearchTabsState) : SearchTabsState :=
  { s with showKeywordOptions := !s.showKeywordOptions }

/-- `resetSearch`, wired to `onClick` of both tab triggers:
`setHasSearched(false)`, `setShowQuestionOptions(true)`,
`setShowKeywordOptions(true)`, `setKeyword("")`, `setResults([])`,
`setError(null)`. Note it does not call `setContentType`. -/
def resetSearch (s : SearchTabsState) : SearchTabsState :=
  { s with
    hasSearched := false
    showQuestionOptions := true
    showKeywordOptions := true
    keyword := ""
    results := .jarr []
    error := none }

/-- The easing function of the smooth-scroll routine,
`t < 0.5 ? 2 * t * t : 1 - Math.pow(-2 * t + 2, 2) / 2`, over exact rational
arithmetic. -/
def easeInOutQuad (t : ℚ) : ℚ :=
  if t < 1/2 then 2 * t * t else 1 - (-2 * t + 2) ^ 2 / 2

/-! Helper lemmas shared by the claim theorems. -/

/-- The inner `try` of the non-ok branch always throws. -/
theorem nonOkInnerTry_isError (r : Response) :
    ∃ t, nonOkInnerTry r = .error t := by
  unfold nonOkInnerTry
  cases hj : r.json with
  | error e => exact ⟨_, rfl⟩
  | ok v => exact ⟨_, rfl⟩

/-- The whole non-ok branch throws the generic endpoint-unavailable error,
whatever the body contained. -/
theorem nonOkBranch_eq (r : Response) :
    nonOkBranch r = .errObj (endpointUnavailableMessage r.status r.statusText) := by
  obtain ⟨t, ht⟩ := nonOkInnerTry_isError r
  unfold nonOkBranch
  rw [ht]

/-- Shape of `handleSearch` when the guard passes and the try block throws. -/
theorem handleSearch_eq_of_error (baseUrl kw ct : String) (o : FetchOutcome)
    (s : SearchTabsState) (t : Thrown) (h : jsTrim kw ≠ "")
    (ht : searchTryBody o = .error t) :
    handleSearch baseUrl kw ct o s =
      ({ preFetchState s with
          error := some t.caughtMessage
          results := .jarr []
          isLoading := false },
        [⟨requestUrl baseUrl kw ct⟩]) := by
  unfold handleSearch
  rw [if_neg h, ht]

/-- Shape of `handleSearch` when the guard passes and the try block returns
parsed data. -/
theorem handleSearch_eq_of_ok (baseUrl kw ct : String) (o : FetchOutcome)
    (s : SearchTabsState) (data : JsonValue) (h : jsTrim kw ≠ "")
    (ht : searchTryBody o = .ok data) :
    handleSearch baseUrl kw ct o s =
      ({ preFetchState s with results := data, isLoading := false },
        [⟨requestUrl baseUrl kw ct⟩]) := by
  unfold handleSearch
  rw [if_neg h, ht]

/-- The malformed-response message and the synthesized non-2xx message are
distinct strings for every status and status text: they differ already in
their first character. -/
theorem invalidResponse_ne_endpointUnavailable (st : Nat) (tx : String) :
    invalidResponseMessage ≠ endpointUnavailableMessage st tx := by
  intro h
  have h2 : invalidResponseMessage.data.head? =
      (endpointUnavailableMessage st tx).data.head? := by rw [h]
  have h3 : invalidResponseMessage.data.head? = some 'T' := rfl
  have h4 : (endpointUnavailableMessage st tx).data.head? = some 'E' := by
    show (((("Error: " ++ toString st) ++ " ") ++ tx) ++
        ". The API endpoint may not be available.").data.head? = some 'E'
    simp only [String.data_append]
    rfl
  rw [h3, h4] at h2
  exact absurd h2 (by decide)

/-! Claim theorems. -/

/-- C3, counterexample: the claim that `results` is cleared before the
outbound request is issued is false. `preFetchState` is the exact state in
which `handleSearch` dispatches the fetch, and starting from a state holding
one stale result, that state still holds it: only `setError(null)` runs
before the request, never `setResults([])`. -/
theorem C3_results_not_cleared_at_start :
    (preFetchState { initialState with results := .jarr [.jnum 1] }).results ≠
      JsonValue.jarr [] := by
  simp [preFetchState, initialState]

/-- C3, amended: at the start of every new request the error field is
cleared to null before the outbound request is issued, but the results
sequence is left unchanged until the request settles. -/
theorem C3_error_cleared_results_unchanged (s : SearchTabsState) :
    (preFetchState s).error = none ∧ (preFetchState s).results = s.results :=
  ⟨rfl, rfl⟩

/-- C4: for every query whose text trims to the empty string, `submit`
issues zero outbound requests and returns every piece of state unchanged. -/
theorem C4_whitespace_query_noop (baseUrl : String) (o : FetchOutcome)
    (s : SearchTabsState) (h : jsTrim s.keyword = "") :
    submit baseUrl o s = (s, []) := by
  unfold submit handleSearch
  rw [if_pos h]

/-- Concrete whitespace-only state used by the C4 witness. -/
def wsState : SearchTabsState := { initialState with keyword := "   " }

/-- Witness for C4 at a three-space query and a 200 response. -/
theorem C4_whitespace_query_noop_witness :
    jsTrim wsState.keyword = "" ∧
      submit "" (.resolved ⟨200, "OK", some (.jarr [])⟩) wsState =
        (wsState, []) :=
  ⟨by decide,
    C4_whitespace_query_noop "" (.resolved ⟨200, "OK", some (.jarr [])⟩)
      wsState (by decide)⟩

/-- C5: for every dispatched request, the state in which the fetch is issued
has `isLoading = true`, and whatever way the fetch settles (success, non-2xx
status, malformed 2xx body, or network exception), the state after the
`finally` clause has `isLoading = false`. -/
theorem C5_isLoading_lifecycle (baseUrl : String) (o : FetchOutcome)
    (s : SearchTabsState) (h : jsTrim s.keyword ≠ "") :
    (preFetchState s).isLoading = true ∧
      (submit baseUrl o s).1.isLoading = false := by
  refine ⟨rfl, ?_⟩
  unfold submit handleSearch
  rw [if_neg h]

/-- Concrete searching state used by the C5 witness. -/
def dvnState : SearchTabsState := { initialState with keyword := "DVN" }

/-- Witness for C5 at the query "DVN" and a network failure. -/
theorem C5_isLoading_lifecycle_witness :
    jsTrim dvnState.keyword ≠ "" ∧
      (preFetchState dvnState).isLoading = true ∧
      (submit "" (.networkFailure (.errObj "Failed to fetch"))
          dvnState).1.isLoading = false :=
  ⟨by decide,
    C5_isLoading_lifecycle "" (.networkFailure (.errObj "Failed to fetch"))
      dvnState (by decide)⟩

/-- C9: for every query with non-empty trimmed text, `submit` issues exactly
one outbound request, whose URL carries the query text percent-encoded with
`encodeURIComponent` as the `q` parameter and the selected content type
verbatim as the `type` parameter. -/
theorem C9_single_encoded_request (baseUrl : String) (o : FetchOutcome)
    (s : SearchTabsState) (h : jsTrim s.keyword ≠ "") :
    (submit baseUrl o s).2 =
      [⟨baseUrl ++ "/api/search?q=" ++ encodeURIComponent s.keyword ++
        "&type=" ++ s.contentType⟩] := by
  unfold submit handleSearch
  rw [if_neg h]
  rfl

/-- Concrete state with a space and a reserved character in the query, used
by the C9 witness. -/
def spacedQueryState : SearchTabsState :=
  { initialState with keyword := "a b?", contentType := "news" }

/-- Witness for C9: the query "a b?" with content type "news" produces the
single request `/api/search?q=a%20b%3F&type=news`. -/
theorem C9_single_encoded_request_witness :
    jsTrim spacedQueryState.keyword ≠ "" ∧
      encodeURIComponent "a b?" = "a%20b%3F" ∧
      (submit "" (.resolved ⟨200, "OK", some (.jarr [])⟩)
          spacedQueryState).2 =
        [⟨"" ++ "/api/search?q=" ++ encodeURIComponent "a b?" ++ "&type=" ++
          "news"⟩] :=
  ⟨by decide, by decide,
    C9_single_encoded_request "" (.resolved ⟨200, "OK", some (.jarr [])⟩)
      spacedQueryState (by decide)⟩

/-- C6: for every 2xx response whose body is not valid JSON, the final error
is the malformed-response message, that message differs from the synthesized
server-error message for every status and status text, and the error is
surfaced (not left null as a silent empty result). -/
theorem C6_malformed_2xx_distinct_error (baseUrl : String)
    (s : SearchTabsState) (r : Response) (hkw : jsTrim s.keyword ≠ "")
    (hok : r.ok = true) (hbody : r.jsonBody = none) :
    (submit baseUrl (.resolved r) s).1.error = some invalidResponseMessage ∧
      (∀ st : Nat, ∀ tx : String,
        invalidResponseMessage ≠ endpointUnavailableMessage st tx) ∧
      (submit baseUrl (.resolved r) s).1.error ≠ none := by
  have ht : searchTryBody (.resolved r) =
      .error (.errObj invalidResponseMessage) := by
    simp only [searchTryBody, Response.json, hbody, hok, if_true]
  unfold submit
  rw [handleSearch_eq_of_error baseUrl s.keyword s.contentType (.resolved r)
    s _ hkw ht]
  exact ⟨rfl, fun st tx => invalidResponse_ne_endpointUnavailable st tx,
    by simp⟩

/-- Concrete searching state used by the C6 witness. -/
def researchState : SearchTabsState :=
  { initialState with keyword := "research" }

/-- Witness for C6 at a 200 response whose body is not JSON. -/
theorem C6_malformed_2xx_distinct_error_witness :
    jsTrim researchState.keyword ≠ "" ∧
      (Response.mk 200 "OK" none).ok = true ∧
      (submit "" (.resolved ⟨200, "OK", none⟩) researchState).1.error =
        some invalidResponseMessage :=
  ⟨by decide, by decide,
    (C6_malformed_2xx_distinct_error "" researchState ⟨200, "OK", none⟩
      (by decide) (by decide) rfl).1⟩

/-- C7: the easing function satisfies `f(0) = 0`, `f(1) = 1`,
`f(1/2) = 1/2`, and is monotonically non-decreasing on `[0, 1]` over exact
rational arithmetic. -/
theorem C7_easing_properties :
    easeInOutQuad 0 = 0 ∧ easeInOutQuad 1 = 1 ∧
      easeInOutQuad (1/2) = 1/2 ∧
      ∀ a b : ℚ, 0 ≤ a → a ≤ b → b ≤ 1 →
        easeInOutQuad a ≤ easeInOutQuad b := by
  refine ⟨by norm_num [easeInOutQuad], by norm_num [easeInOutQuad],
    by norm_num [easeInOutQuad], ?_⟩
  intro a b ha hab hb
  by_cases h1 : a < 1/2
  · by_cases h2 : b < 1/2
    · simp only [easeInOutQuad, if_pos h1, if_pos h2]
      nlinarith [mul_nonneg (sub_nonneg.2 hab)
        (by linarith : (0:ℚ) ≤ a + b)]
    · simp only [easeInOutQuad, if_pos h1, if_neg h2]
      nlinarith [mul_nonneg (by linarith : (0:ℚ) ≤ 2 - 2 * b)
          (by linarith : (0:ℚ) ≤ 2 * b - 1),
        mul_nonneg (by linarith : (0:ℚ) ≤ 1/2 - a) ha]
  · by_cases h2 : b < 1/2
    · exact absurd (lt_of_le_of_lt hab h2) h1
    · simp only [easeInOutQuad, if_neg h1, if_neg h2]
      nlinarith [mul_nonneg (by linarith : (0:ℚ) ≤ 2 * b - 2 * a)
        (by linarith : (0:ℚ) ≤ 4 - 2 * a - 2 * b)]

/-- Witness for C7's monotonicity component at the endpoints of `[0, 1]`. -/
theorem C7_easing_properties_witness :
    (0:ℚ) ≤ 0 ∧ (0:ℚ) ≤ 1 ∧ (1:ℚ) ≤ 1 ∧
      easeInOutQuad 0 ≤ easeInOutQuad 1 :=
  ⟨le_refl 0, zero_le_one, le_refl 1,
    C7_easing_properties.2.2.2 0 1 (le_refl 0) zero_le_one (le_refl 1)⟩

/-- C10: for every non-2xx response, regardless of whether its body parses
as JSON and regardless of any `error` field it contains, the stored error is
the synthesized message `Error: <status> <statusText>. The API endpoint may
not be available.` — the throw carrying the server-provided message happens
inside the same try block whose catch replaces it. -/
theorem C10_non2xx_generic_message (baseUrl : String) (s : SearchTabsState)
    (r : Response) (hkw : jsTrim s.keyword ≠ "") (hok : r.ok = false) :
    (submit baseUrl (.resolved r) s).1.error =
      some (endpointUnavailableMessage r.status r.statusText) ∧
      (submit baseUrl (.resolved r) s).1.results = .jarr [] := by
  have ht : searchTryBody (.resolved r) =
      .error (.errObj (endpointUnavailableMessage r.status r.statusText)) := by
    simp only [searchTryBody, hok, Bool.false_eq_true, if_false,
      nonOkBranch_eq]
  unfold submit
  rw [handleSearch_eq_of_error baseUrl s.keyword s.contentType (.resolved r)
    s _ hkw ht]
  exact ⟨rfl, rfl⟩

/-- Concrete searching state used by the C10 witness. -/
def oracleState : SearchTabsState := { initialState with keyword := "Oracle" }

/-- Witness for C10 at a 503 response carrying a JSON `error` field, whose
text is nonetheless replaced by the synthesized message. -/
theorem C10_non2xx_generic_message_witness :
    jsTrim oracleState.keyword ≠ "" ∧
      (Response.mk 503 "Service Unavailable"
        (some (.jobj [("error", .jstr "overloaded")]))).ok = false ∧
      (submit "" (.resolved ⟨503, "Service Unavailable",
          some (.jobj [("error", .jstr "overloaded")])⟩) oracleState).1.error =
        some (endpointUnavailableMessage 503 "Service Unavailable") :=
  ⟨by decide, by decide,
    (C10_non2xx_generic_message "" oracleState
      ⟨503, "Service Unavailable", some (.jobj [("error", .jstr "overloaded")])⟩
      (by decide) (by decide)).1⟩

/-- The spec's simulated failing input for C1: a 500 response whose JSON
body carries the server-provided error string "db down". -/
def dbDownResponse : Response :=
  ⟨500, "Internal Server Error", some (.jobj [("error", .jstr "db down")])⟩

/-- Final state after submitting a non-empty query against
`dbDownResponse`. -/
def dbDownFinal : SearchTabsState :=
  (submit "" (.resolved dbDownResponse)
    { initialState with keyword := "db status" }).1

/-- C1, code behaviour at the failing input: the server-provided string
"db down" is NOT stored; the `throw new Error(errorData.error || ...)`
carrying it sits inside the same try block whose `catch (jsonError)` clause
replaces it with the generic endpoint-unavailable message. Only the
results-become-empty half of the claim holds. -/
theorem C1_server_error_string_discarded :
    dbDownFinal.error ≠ some "db down" ∧
      dbDownFinal.error = some
        "Error: 500 Internal Server Error. The API endpoint may not be available." ∧
      dbDownFinal.results = .jarr [] :=
  ⟨by decide, rfl, rfl⟩

/-- Mocked successful response used by the C2 code-behaviour theorem. -/
def okArrayResponse : Response :=
  ⟨200, "OK", some (.jarr [.jobj [("id", .jnum 1)]])⟩

/-- C2, code behaviour at the failing input: clicking the chip "DVN" from
the initial state issues no request and never searches, because
`handleSearch` runs with the render snapshot's empty `keyword` (the
`setKeyword` call does not change the value the same render's closure
captured), while typing "DVN" and pressing Enter issues one request and
marks the search as performed. The two flows therefore differ in final
state and in issued requests. -/
theorem C2_chip_click_not_equivalent :
    (handleKeywordClick "" "DVN" (.resolved okArrayResponse)
        initialState).2.length = 0 ∧
      (handleKeywordClick "" "DVN" (.resolved okArrayResponse)
        initialState).1.hasSearched = false ∧
      (typeThenEnter "" "DVN" (.resolved okArrayResponse)
        initialState).2.length = 1 ∧
      (typeThenEnter "" "DVN" (.resolved okArrayResponse)
        initialState).1.hasSearched = true :=
  ⟨rfl, rfl, rfl, rfl⟩

/-- C8, counterexample: `resetSearch` does not restore the pristine
content-type filter ("all"); starting from a state whose filter is "news",
the filter survives the reset, so the claim that the reset clears both parts
of the query is false. -/
theorem C8_contentType_not_cleared :
    (resetSearch { initialState with contentType := "news" }).contentType ≠
      "all" := by
  decide

/-- C8, amended: `resetSearch` clears the query text, results, error and
`hasSearched`, re-shows both suggestion panels, and leaves the content-type
filter unchanged. -/
theorem C8_reset_restores_except_contentType (s : SearchTabsState) :
    (resetSearch s).keyword = "" ∧
      (resetSearch s).results = JsonValue.jarr [] ∧
      (resetSearch s).error = none ∧
      (resetSearch s).hasSearched = false ∧
      (resetSearch s).showQuestionOptions = true ∧
      (resetSearch s).showKeywordOptions = true ∧
      (resetSearch s).contentType = s.contentType :=
  ⟨rfl, rfl, rfl, rfl, rfl, rfl, rfl⟩

end SearchTabs
